import Mathlib

/-!
Verification of `Landsat_data_download.py` (function `Landsat_Surface_Reflectance`).

The Python function is an orchestration of Google Earth Engine (GEE) query calls:
it filters an image collection by point, date range and cloud cover, and builds a
pandas DataFrame with one row per matching image.  We give a shallow embedding:

* the external catalog service is modelled as data: a list of `EEImage` records
  carrying exactly the metadata and pixel values the Python code reads
  (`DATE_ACQUIRED`, `CLOUD_COVER`, `REFLECTANCE_MULT_BAND_2`,
  `REFLECTANCE_ADD_BAND_2`, footprint membership, acquisition time, and the raw
  per-band pixel value at the queried point);
* the pandas DataFrame is a list of column labels plus a list of rows of `Cell`s;
* numeric values are rationals (exact arithmetic stands in for Python floats);
* dates handed to `filterDate` are integers (GEE compares time stamps; the start
  bound is inclusive, the end bound exclusive).

Service behaviour that the repository does not implement is modelled where the
code calls it, each such spot marked by a comment:
* `sampleRegions` on a one-point `FeatureCollection` whose point lies inside the
  image footprint (guaranteed upstream by `filterBounds`) yields exactly one
  feature whose properties map each selected band to the image's pixel value at
  the point;
* subscripting the point geometry with `'coordinates'` yields the GeoJSON
  coordinate pair `[longitude, latitude]` of `ee.Geometry.Point(longitude, latitude)`.

A second embedding, `LSR_E`, runs the same computation against a fallible
service oracle (every `getInfo` round trip may return an error); it is used for
the error-propagation and determinism claims.
-/

namespace Landsat

/-- A cell of the output DataFrame: null (`None`/`NaN`), a string (dates), a
numeric value, or a coordinate pair. -/
inductive Cell where
  | null : Cell
  | str : String → Cell
  | num : ℚ → Cell
  | coord : ℚ × ℚ → Cell
  deriving DecidableEq, Repr

/-- The pandas DataFrame built by the function: ordered column labels and rows
of cells, each row aligned with the column list. -/
structure DataFrame where
  columns : List String
  rows : List (List Cell)
  deriving DecidableEq, Repr

/-- One image of the catalog, with exactly the data the Python function reads
from the service.  `boundsContain` is the image footprint test used by
`filterBounds`; `timeStart` the acquisition time compared by `filterDate`;
`rawValue` the raw (uncorrected) pixel value of each band at the queried point. -/
structure EEImage where
  dateAcquired : String
  cloudCover : ℚ
  reflectanceMultBand2 : ℚ
  reflectanceAddBand2 : ℚ
  boundsContain : ℚ × ℚ → Bool
  timeStart : Int
  rawValue : String → ℚ

/-- Line 68: `ee.ImageCollection(address).select(bands).filterBounds(point)`
`.filterDate(start, end).filterMetadata('CLOUD_COVER', 'less_than', max_cloud_cover)`.
The `catalog` argument is the collection addressed by `collection_address`;
`select` restricts the band set and is the identity on the data we read.
`filterDate` keeps images with `start ≤ t < end`; `filterMetadata less_than`
keeps images with `CLOUD_COVER < max_cloud_cover`. -/
def filteredCollection (catalog : List EEImage) (longitude latitude : ℚ)
    (start_date end_date : Int) (max_cloud_cover : ℚ) : List EEImage :=
  ((catalog.filter (fun im => im.boundsContain (longitude, latitude))).filter
      (fun im => decide (start_date ≤ im.timeStart) && decide (im.timeStart < end_date))).filter
    (fun im => decide (im.cloudCover < max_cloud_cover))

/-- Line 73: `['Date','Coordinate'] + bands + ['CloudCover']`. -/
def dfColumns (bands : List String) : List String :=
  ["Date", "Coordinate"] ++ bands ++ ["CloudCover"]

/-- `empty_df.loc[0] = row`: pandas assigns the row labelled 0, creating it when
absent and overwriting it otherwise. -/
def setRow0 (rows : List (List Cell)) (r : List Cell) : List (List Cell) :=
  match rows with
  | [] => [r]
  | _ :: t => r :: t

/-- Lines 73-76: build the empty-result DataFrame.  The Python loop runs
`len(columns)` times and each iteration assigns row 0 to a list of `None`s. -/
def emptyDF (bands : List String) : DataFrame :=
  let cols := dfColumns bands
  { columns := cols
    rows := (List.range cols.length).foldl
      (fun rows _ => setRow0 rows (List.replicate cols.length Cell.null)) [] }

/-- Line 94: `image.multiply(M).add(A)` — affine transform of every band. -/
def multiplyAdd (m a : ℚ) (im : EEImage) : EEImage :=
  { im with rawValue := fun b => im.rawValue b * m + a }

/-- Lines 94-101: `sampleRegions(collection=FeatureCollection([point]), scale, geometries=True)`
followed by `.getInfo()['features']`.  Modelled service behaviour: sampling the
single point, which lies inside the image footprint (ensured by `filterBounds`
upstream), yields exactly one feature whose properties map each band to the
image's pixel value at the point.  `scale` parameterizes the service's
resampling and does not change the shape of the response. -/
def sampleRegions (im : EEImage) : List (String → ℚ) :=
  [im.rawValue]

/-- Lines 102-113: build one `data_row` dict and align it with the column list
`['Date','Coordinate'] + bands + ['CloudCover']`.  The `Coordinate` cell is
`point_of_interest['coordinates']`, modelled as the GeoJSON coordinates
`(longitude, latitude)` of the point geometry. -/
def dataRow (bands : List String) (longitude latitude : ℚ) (date : String)
    (cloud_cover : ℚ) (props : String → ℚ) : List Cell :=
  Cell.str date :: Cell.coord (longitude, latitude) ::
    (bands.map (fun b => Cell.num (props b)) ++ [Cell.num cloud_cover])

/-- Lines 86-115, body of the loop for one image: read `DATE_ACQUIRED`,
`CLOUD_COVER`, `REFLECTANCE_MULT_BAND_2` (M) and `REFLECTANCE_ADD_BAND_2` (A)
from the image's properties, sample the corrected image at the point, and
produce one row per returned feature. -/
def imageRows (bands : List String) (longitude latitude : ℚ) (im : EEImage) :
    List (List Cell) :=
  let M := im.reflectanceMultBand2
  let A := im.reflectanceAddBand2
  (sampleRegions (multiplyAdd M A im)).map
    (fun props => dataRow bands longitude latitude im.dateAcquired im.cloudCover props)

/-- Lines 85-115: iterate the image list in order, appending each image's rows
to the DataFrame (`df = df.append(data_row, ignore_index=True)`). -/
def dataRows (bands : List String) (longitude latitude : ℚ)
    (imgs : List EEImage) : List (List Cell) :=
  imgs.foldl (fun acc im => acc ++ imageRows bands longitude latitude im) []

/-- Lines 64-117: the whole function.  `catalog` stands for the image collection
addressed by `collection_address`; its filtered form is queried for its size
(line 71) and, when non-empty, iterated image by image. -/
def Landsat_Surface_Reflectance (catalog : List EEImage) (longitude latitude : ℚ)
    (start_date end_date : Int) (bands : List String) (max_cloud_cover : ℚ) :
    DataFrame :=
  let landsat := filteredCollection catalog longitude latitude start_date end_date
    max_cloud_cover
  if landsat.length = 0 then
    emptyDF bands
  else
    { columns := dfColumns bands
      rows := dataRows bands longitude latitude landsat }

/-! ## Fallible-service embedding

Every `.getInfo()` in the Python function is a blocking round trip that can
fail (authentication, network, invalid catalog address, missing metadata key);
the function installs no handler, so in Python an exception unwinds through it.
`LSR_E` is the same computation over an oracle whose round trips return
`Except ε`: since `ε` is abstract, the function cannot build, inspect or
replace an error — any error it returns is one the oracle produced. -/

/-- Metadata read at line 87-91 from `image.getInfo()['properties']`. -/
structure ImageProps where
  dateAcquired : String
  cloudCover : ℚ
  reflectanceMultBand2 : ℚ
  reflectanceAddBand2 : ℚ

/-- The service oracle seen by one call: the answer to the collection-size
query (`landsat.size().getInfo()`, also `image_list.size().getInfo()` — the
same request, hence one field), and, per image index, the answers to
`image.getInfo()` and to the corrected image's
`sampleRegions(...).getInfo()['features']`. -/
structure EEServiceE (ε : Type u) where
  sizeInfo : Except ε Nat
  imageInfo : Nat → Except ε ImageProps
  sampleInfo : Nat → Except ε (List (String → ℚ))

/-- Lines 85-115 over the fallible oracle: iterate the given image indices in
order; any failing round trip aborts the loop with that error. -/
def buildRowsE (svc : EEServiceE ε) (longitude latitude : ℚ)
    (bands : List String) : List Nat → Except ε (List (List Cell))
  | [] => .ok []
  | i :: rest => do
    let props ← svc.imageInfo i
    let feats ← svc.sampleInfo i
    let rows := feats.map
      (fun f => dataRow bands longitude latitude props.dateAcquired props.cloudCover f)
    let tail ← buildRowsE svc longitude latitude bands rest
    return rows ++ tail

/-- Lines 64-117 over the fallible oracle. -/
def LSR_E (svc : EEServiceE ε) (longitude latitude : ℚ) (bands : List String) :
    Except ε DataFrame := do
  let n ← svc.sizeInfo
  if n = 0 then
    return emptyDF bands
  else
    let rows ← buildRowsE svc longitude latitude bands (List.range n)
    return { columns := dfColumns bands, rows := rows }

/-! ## Argument-state embedding

Python lists are mutable and `bands` defaults to a shared list.  To state the
frame property we thread the caller-visible argument objects through the call
as explicit state: each statement of the body that touches an argument is a
read (`+` builds a fresh list at lines 73/79; `for band in bands` iterates). -/

/-- The argument objects of one call, as the caller observes them. -/
structure Args where
  longitude : ℚ
  latitude : ℚ
  start_date : Int
  end_date : Int
  bands : List String
  max_cloud_cover : ℚ

/-- The function body with the argument objects as explicit state: every access
to an argument is a `get`; no statement of the source assigns into any of them,
so no `set` occurs. -/
def LSR_stateful (catalog : List EEImage) : StateM Args DataFrame := do
  let lon := (← get).longitude
  let lat := (← get).latitude
  let landsat := filteredCollection catalog lon lat (← get).start_date
    (← get).end_date (← get).max_cloud_cover
  if landsat.length = 0 then
    return emptyDF (← get).bands
  else
    return { columns := dfColumns (← get).bands
             rows := dataRows (← get).bands lon lat landsat }

/-! ## Derived characterization and concrete inputs -/

/-- The row the loop body (lines 86-115) produces for one matching image: date,
point coordinate, the affine correction with that image's band-2 coefficients
applied to each requested band's raw value, and the image's cloud cover.  Used
in theorem statements; proved equal to what `Landsat_Surface_Reflectance`
builds. -/
def rowOfImage (bands : List String) (longitude latitude : ℚ) (im : EEImage) :
    List Cell :=
  dataRow bands longitude latitude im.dateAcquired im.cloudCover
    (fun b => im.rawValue b * im.reflectanceMultBand2 + im.reflectanceAddBand2)

/-- A concrete catalog image, used to instantiate theorems with hypotheses. -/
def im0 : EEImage where
  dateAcquired := "2022-01-01"
  cloudCover := 1
  reflectanceMultBand2 := 2
  reflectanceAddBand2 := 3
  boundsContain := fun _ => true
  timeStart := 0
  rawValue := fun _ => 5

/-- A second concrete catalog image, dated earlier than `im0`, so that list
order and chronological order differ. -/
def im1 : EEImage where
  dateAcquired := "2021-06-15"
  cloudCover := 2
  reflectanceMultBand2 := 4
  reflectanceAddBand2 := 1
  boundsContain := fun _ => true
  timeStart := 0
  rawValue := fun _ => 7

/-- A concrete fallible oracle whose size query fails with an authentication
error. -/
def svc0 : EEServiceE String where
  sizeInfo := .error "authentication failure"
  imageInfo := fun _ => .ok ⟨"2022-01-01", 1, 2, 3⟩
  sampleInfo := fun _ => .ok []

/-- A concrete healthy oracle: one image, one sampled feature. -/
def svcA : EEServiceE String where
  sizeInfo := .ok 1
  imageInfo := fun _ => .ok ⟨"2022-01-01", 1, 2, 3⟩
  sampleInfo := fun _ => .ok [fun _ => 13]

/-- A second oracle giving the same responses as `svcA` to every request. -/
def svcB : EEServiceE String where
  sizeInfo := .ok 1
  imageInfo := fun _ => .ok ⟨"2022-01-01", 1, 2, 3⟩
  sampleInfo := fun _ => .ok [fun _ => 13]

/-- A concrete oracle whose image-metadata query fails with a network error. -/
def svcImgErr : EEServiceE String where
  sizeInfo := .ok 1
  imageInfo := fun _ => .error "network error"
  sampleInfo := fun _ => .ok [fun _ => 13]

/-- A concrete oracle whose point-sampling query fails with a missing-metadata
error. -/
def svcSampErr : EEServiceE String where
  sizeInfo := .ok 1
  imageInfo := fun _ => .ok ⟨"2022-01-01", 1, 2, 3⟩
  sampleInfo := fun _ => .error "missing metadata"

/-! ## Helper lemmas -/

lemma imageRows_eq (bands : List String) (longitude latitude : ℚ) (im : EEImage) :
    imageRows bands longitude latitude im = [rowOfImage bands longitude latitude im] :=
  rfl

lemma dataRows_foldl (bands : List String) (longitude latitude : ℚ)
    (imgs : List EEImage) (acc : List (List Cell)) :
    imgs.foldl (fun acc im => acc ++ imageRows bands longitude latitude im) acc =
      acc ++ imgs.map (rowOfImage bands longitude latitude) := by
  induction imgs generalizing acc with
  | nil => simp
  | cons hd tl ih =>
    simp only [List.foldl_cons, List.map_cons]
    rw [ih, imageRows_eq, List.append_assoc]
    rfl

lemma dataRows_eq (bands : List String) (longitude latitude : ℚ)
    (imgs : List EEImage) :
    dataRows bands longitude latitude imgs =
      imgs.map (rowOfImage bands longitude latitude) := by
  unfold dataRows
  rw [dataRows_foldl]
  rfl

lemma LSR_rows_of_ne (catalog : List EEImage) (longitude latitude : ℚ)
    (start_date end_date : Int) (bands : List String) (max_cloud_cover : ℚ)
    (h : filteredCollection catalog longitude latitude start_date end_date
      max_cloud_cover ≠ []) :
    (Landsat_Surface_Reflectance catalog longitude latitude start_date end_date
        bands max_cloud_cover).rows =
      (filteredCollection catalog longitude latitude start_date end_date
        max_cloud_cover).map (rowOfImage bands longitude latitude) := by
  unfold Landsat_Surface_Reflectance
  rw [if_neg (by simpa using h)]
  exact dataRows_eq ..

lemma foldl_setRow0 (l : List ℕ) (r : List Cell) (t : List (List Cell)) :
    l.foldl (fun rows _ => setRow0 rows r) (r :: t) = r :: t := by
  induction l with
  | nil => rfl
  | cons hd tl ih => simpa [setRow0] using ih

lemma emptyDF_rows (bands : List String) :
    (emptyDF bands).rows =
      [List.replicate (bands.length + 3) Cell.null] := by
  have hlen : (dfColumns bands).length = bands.length + 3 := by
    simp [dfColumns]
  show (List.range (dfColumns bands).length).foldl
      (fun rows _ => setRow0 rows (List.replicate (dfColumns bands).length Cell.null)) [] = _
  rw [hlen]
  have : List.range (bands.length + 3) =
      0 :: (List.range (bands.length + 2)).map Nat.succ := by
    exact List.range_succ_eq_map _
  rw [this]
  simp only [List.foldl_cons]
  show (List.map Nat.succ (List.range (bands.length + 2))).foldl
      (fun rows _ => setRow0 rows (List.replicate (bands.length + 3) Cell.null))
      [List.replicate (bands.length + 3) Cell.null] = _
  exact foldl_setRow0 ..

lemma buildRowsE_reaches_error (svc : EEServiceE ε) (longitude latitude : ℚ)
    (bands : List String) (e : ε) :
    ∀ (c s i : ℕ), i < c →
      (∀ k, k < i →
        ∃ p fs, svc.imageInfo (s + k) = .ok p ∧ svc.sampleInfo (s + k) = .ok fs) →
      ((svc.imageInfo (s + i) = .error e →
          buildRowsE svc longitude latitude bands (List.range' s c) = .error e) ∧
       (∀ p, svc.imageInfo (s + i) = .ok p → svc.sampleInfo (s + i) = .error e →
          buildRowsE svc longitude latitude bands (List.range' s c) = .error e)) := by
  intro c
  induction c with
  | zero => intro s i hi; exact absurd hi (Nat.not_lt_zero i)
  | succ m ih =>
    intro s i hi hpre
    rw [List.range'_succ]
    cases i with
    | zero =>
      constructor
      · intro him
        simp only [Nat.add_zero] at him
        simp only [buildRowsE, bind, Except.bind, him]
      · intro p him hs
        simp only [Nat.add_zero] at him hs
        simp only [buildRowsE, bind, Except.bind, him, hs]
    | succ j =>
      obtain ⟨p0, fs0, hp0, hf0⟩ := hpre 0 (Nat.succ_pos j)
      simp only [Nat.add_zero] at hp0 hf0
      have hpre' : ∀ k, k < j →
          ∃ p fs, svc.imageInfo (s + 1 + k) = .ok p ∧
            svc.sampleInfo (s + 1 + k) = .ok fs := by
        intro k hk
        have := hpre (k + 1) (Nat.succ_lt_succ hk)
        rwa [show s + (k + 1) = s + 1 + k by omega] at this
      have htail := ih (s + 1) j (Nat.lt_of_succ_lt_succ hi) hpre'
      rw [show s + 1 + j = s + (j + 1) by omega] at htail
      constructor
      · intro him
        simp only [buildRowsE, bind, Except.bind, hp0, hf0, htail.1 him]
      · intro p him hs
        simp only [buildRowsE, bind, Except.bind, hp0, hf0, htail.2 p him hs]

lemma buildRowsE_congr (svc₁ svc₂ : EEServiceE ε)
    (h2 : ∀ i, svc₁.imageInfo i = svc₂.imageInfo i)
    (h3 : ∀ i, svc₁.sampleInfo i = svc₂.sampleInfo i)
    (longitude latitude : ℚ) (bands : List String) (l : List Nat) :
    buildRowsE svc₁ longitude latitude bands l =
      buildRowsE svc₂ longitude latitude bands l := by
  induction l with
  | nil => rfl
  | cons hd tl ih =>
    simp only [buildRowsE, h2, h3, ih]

/-! ## Claim theorems -/

/-- C1: for every call in which the filtered collection contains zero matching
images, the returned table has exactly one row, and every cell of that row
(Date, Coordinate, every requested band column, CloudCover) is null. -/
theorem C1_empty_result_single_null_row (catalog : List EEImage)
    (longitude latitude : ℚ) (start_date end_date : Int) (bands : List String)
    (max_cloud_cover : ℚ)
    (h : filteredCollection catalog longitude latitude start_date end_date
      max_cloud_cover = []) :
    (Landsat_Surface_Reflectance catalog longitude latitude start_date end_date
        bands max_cloud_cover).rows =
      [List.replicate (bands.length + 3) Cell.null] := by
  simp [Landsat_Surface_Reflectance, h, emptyDF_rows]

/-- Witness for C1: a concrete call on an empty catalog. -/
theorem C1_empty_result_single_null_row_witness :
    (Landsat_Surface_Reflectance [] 0 0 0 1 ["SR_B4", "SR_B3", "SR_B2"] 10).rows =
      [List.replicate (["SR_B4", "SR_B3", "SR_B2"].length + 3) Cell.null] :=
  C1_empty_result_single_null_row [] 0 0 0 1 ["SR_B4", "SR_B3", "SR_B2"] 10 rfl

/-- C2: in the row produced for the i-th matching image, the cell of the j-th
requested band equals `raw_value * M + A`, where `M` and `A` are that image's
`REFLECTANCE_MULT_BAND_2` / `REFLECTANCE_ADD_BAND_2` metadata coefficients —
the same pair for every requested band of that image. -/
theorem C2_band_value_affine_correction (catalog : List EEImage)
    (longitude latitude : ℚ) (start_date end_date : Int) (bands : List String)
    (max_cloud_cover : ℚ) (i j : ℕ)
    (hi : i < (filteredCollection catalog longitude latitude start_date end_date
      max_cloud_cover).length)
    (hj : j < bands.length) :
    ∃ im : EEImage,
      (filteredCollection catalog longitude latitude start_date end_date
        max_cloud_cover)[i]? = some im ∧
      ((Landsat_Surface_Reflectance catalog longitude latitude start_date
          end_date bands max_cloud_cover).rows[i]?.bind fun r => r[j + 2]?) =
        some (Cell.num (im.rawValue bands[j] * im.reflectanceMultBand2 +
          im.reflectanceAddBand2)) := by
  have hne : filteredCollection catalog longitude latitude start_date end_date
      max_cloud_cover ≠ [] :=
    List.ne_nil_of_length_pos (Nat.lt_of_le_of_lt (Nat.zero_le i) hi)
  refine ⟨_, List.getElem?_eq_getElem hi, ?_⟩
  rw [LSR_rows_of_ne _ _ _ _ _ _ _ hne, List.getElem?_map,
    List.getElem?_eq_getElem hi]
  simp only [Option.map_some', Option.some_bind]
  simp only [rowOfImage, dataRow, List.getElem?_cons_succ]
  rw [List.getElem?_append, if_pos (by simpa using hj), List.getElem?_map,
    List.getElem?_eq_getElem hj]
  rfl

/-- Witness for C2: a concrete one-image catalog;
`5 * 2 + 3 = 13` is the corrected band value. -/
theorem C2_band_value_affine_correction_witness :
    ∃ im : EEImage,
      (filteredCollection [im0] 0 0 0 1 10)[0]? = some im ∧
      ((Landsat_Surface_Reflectance [im0] 0 0 0 1 ["SR_B4"] 10).rows[0]?.bind
          fun r => r[0 + 2]?) =
        some (Cell.num (im.rawValue "SR_B4" * im.reflectanceMultBand2 +
          im.reflectanceAddBand2)) :=
  C2_band_value_affine_correction [im0] 0 0 0 1 ["SR_B4"] 10 0 0 (by decide)
    (by decide)

/-- C3: for N ≥ 1 matching images the returned table has exactly N rows, each
with a non-null date (a string), a non-null coordinate (a pair), and exactly
one numeric value per requested band followed by the CloudCover value. -/
theorem C3_nonempty_row_shape (catalog : List EEImage) (longitude latitude : ℚ)
    (start_date end_date : Int) (bands : List String) (max_cloud_cover : ℚ)
    (h : 1 ≤ (filteredCollection catalog longitude latitude start_date end_date
      max_cloud_cover).length) :
    (Landsat_Surface_Reflectance catalog longitude latitude start_date end_date
        bands max_cloud_cover).rows.length =
      (filteredCollection catalog longitude latitude start_date end_date
        max_cloud_cover).length ∧
    ∀ r ∈ (Landsat_Surface_Reflectance catalog longitude latitude start_date
        end_date bands max_cloud_cover).rows,
      ∃ (d : String) (c : ℚ × ℚ) (vs : List ℚ) (q : ℚ),
        vs.length = bands.length ∧
        r = Cell.str d :: Cell.coord c :: (vs.map Cell.num ++ [Cell.num q]) := by
  have hne : filteredCollection catalog longitude latitude start_date end_date
      max_cloud_cover ≠ [] := List.ne_nil_of_length_pos h
  constructor
  · rw [LSR_rows_of_ne _ _ _ _ _ _ _ hne, List.length_map]
  · intro r hr
    rw [LSR_rows_of_ne _ _ _ _ _ _ _ hne] at hr
    obtain ⟨im, _, rfl⟩ := List.mem_map.mp hr
    refine ⟨im.dateAcquired, (longitude, latitude),
      bands.map (fun b => im.rawValue b * im.reflectanceMultBand2 +
        im.reflectanceAddBand2), im.cloudCover, List.length_map .., ?_⟩
    simp [rowOfImage, dataRow, List.map_map, Function.comp]

/-- Witness for C3: a concrete one-image catalog with the default band list. -/
theorem C3_nonempty_row_shape_witness :
    (Landsat_Surface_Reflectance [im0] 0 0 0 1 ["SR_B4", "SR_B3", "SR_B2"]
        10).rows.length = (filteredCollection [im0] 0 0 0 1 10).length ∧
    ∀ r ∈ (Landsat_Surface_Reflectance [im0] 0 0 0 1
        ["SR_B4", "SR_B3", "SR_B2"] 10).rows,
      ∃ (d : String) (c : ℚ × ℚ) (vs : List ℚ) (q : ℚ),
        vs.length = ["SR_B4", "SR_B3", "SR_B2"].length ∧
        r = Cell.str d :: Cell.coord c :: (vs.map Cell.num ++ [Cell.num q]) :=
  C3_nonempty_row_shape [im0] 0 0 0 1 ["SR_B4", "SR_B3", "SR_B2"] 10 (by decide)

/-- C4: in the non-empty case, the CloudCover cell (last column) of every
returned row holds a value that does not exceed the configured
`max_cloud_cover` threshold. -/
theorem C4_cloud_cover_within_threshold (catalog : List EEImage)
    (longitude latitude : ℚ) (start_date end_date : Int) (bands : List String)
    (max_cloud_cover : ℚ) (r : List Cell)
    (hne : filteredCollection catalog longitude latitude start_date end_date
      max_cloud_cover ≠ [])
    (hr : r ∈ (Landsat_Surface_Reflectance catalog longitude latitude
      start_date end_date bands max_cloud_cover).rows) :
    ∃ q : ℚ, r.getLast? = some (Cell.num q) ∧ q ≤ max_cloud_cover := by
  rw [LSR_rows_of_ne _ _ _ _ _ _ _ hne] at hr
  obtain ⟨im, him, rfl⟩ := List.mem_map.mp hr
  refine ⟨im.cloudCover, ?_, ?_⟩
  · show ((Cell.str im.dateAcquired :: Cell.coord (longitude, latitude) ::
      bands.map (fun b => Cell.num (im.rawValue b * im.reflectanceMultBand2 +
        im.reflectanceAddBand2))) ++ [Cell.num im.cloudCover]).getLast? = _
    exact List.getLast?_concat _
  · have hmem := (List.mem_filter.mp him).2
    exact le_of_lt (by simpa using hmem)

/-- Witness for C4: the concrete row of the one-image catalog. -/
theorem C4_cloud_cover_within_threshold_witness :
    ∃ q : ℚ,
      (rowOfImage ["SR_B4"] 0 0 im0).getLast? = some (Cell.num q) ∧ q ≤ 10 :=
  C4_cloud_cover_within_threshold [im0] 0 0 0 1 ["SR_B4"] 10
    (rowOfImage ["SR_B4"] 0 0 im0)
    (List.ne_nil_of_length_pos (by decide)) (List.mem_singleton.mpr rfl)

/-- C5: in the non-empty case, every returned row's Coordinate cell (second
column) equals the (longitude, latitude) pair passed to the call. -/
theorem C5_coordinate_cell_is_query_point (catalog : List EEImage)
    (longitude latitude : ℚ) (start_date end_date : Int) (bands : List String)
    (max_cloud_cover : ℚ) (r : List Cell)
    (hne : filteredCollection catalog longitude latitude start_date end_date
      max_cloud_cover ≠ [])
    (hr : r ∈ (Landsat_Surface_Reflectance catalog longitude latitude
      start_date end_date bands max_cloud_cover).rows) :
    r[1]? = some (Cell.coord (longitude, latitude)) := by
  rw [LSR_rows_of_ne _ _ _ _ _ _ _ hne] at hr
  obtain ⟨im, _, rfl⟩ := List.mem_map.mp hr
  simp [rowOfImage, dataRow]

/-- Witness for C5: the concrete row of the one-image catalog. -/
theorem C5_coordinate_cell_is_query_point_witness :
    (rowOfImage ["SR_B4"] 0 0 im0)[1]? = some (Cell.coord (0, 0)) :=
  C5_coordinate_cell_is_query_point [im0] 0 0 0 1 ["SR_B4"] 10
    (rowOfImage ["SR_B4"] 0 0 im0)
    (List.ne_nil_of_length_pos (by decide)) (List.mem_singleton.mpr rfl)

/-- C6: in both the empty and the non-empty case, the returned table's columns
are exactly Date, Coordinate, the requested bands in their given order, and
CloudCover. -/
theorem C6_column_layout (catalog : List EEImage) (longitude latitude : ℚ)
    (start_date end_date : Int) (bands : List String) (max_cloud_cover : ℚ) :
    (Landsat_Surface_Reflectance catalog longitude latitude start_date end_date
        bands max_cloud_cover).columns =
      ["Date", "Coordinate"] ++ bands ++ ["CloudCover"] := by
  unfold Landsat_Surface_Reflectance
  dsimp only
  split <;> rfl

/-- C7: in the non-empty case the rows of the returned table are, in order,
the rows of the images as the catalog's iteration enumerates them — the map of
the row-builder over the filtered list, with no re-sorting. -/
theorem C7_rows_follow_catalog_order (catalog : List EEImage)
    (longitude latitude : ℚ) (start_date end_date : Int) (bands : List String)
    (max_cloud_cover : ℚ)
    (hne : filteredCollection catalog longitude latitude start_date end_date
      max_cloud_cover ≠ []) :
    (Landsat_Surface_Reflectance catalog longitude latitude start_date end_date
        bands max_cloud_cover).rows =
      (filteredCollection catalog longitude latitude start_date end_date
        max_cloud_cover).map (rowOfImage bands longitude latitude) :=
  LSR_rows_of_ne catalog longitude latitude start_date end_date bands
    max_cloud_cover hne

/-- Witness for C7: a concrete two-image catalog. -/
theorem C7_rows_follow_catalog_order_witness :
    (Landsat_Surface_Reflectance [im0, im1] 0 0 0 1 ["SR_B4"] 10).rows =
      (filteredCollection [im0, im1] 0 0 0 1 10).map (rowOfImage ["SR_B4"] 0 0) :=
  C7_rows_follow_catalog_order [im0, im1] 0 0 0 1 ["SR_B4"] 10
    (List.ne_nil_of_length_pos (by decide))

/-- C8: every failure raised by an upstream round trip during the call
propagates to the caller unmodified.  A failing collection-size query surfaces
verbatim as the call's result; and whenever the loop reaches image `i` (the
size query returned `n > i` and every round trip of the earlier images
succeeded), a failing metadata query for image `i`, or a failing sampling
query after its metadata succeeded, also surfaces verbatim — no error is
caught, transformed, or replaced by a sentinel result. -/
theorem C8_upstream_errors_propagate_unmodified (svc : EEServiceE ε)
    (longitude latitude : ℚ) (bands : List String) (e : ε) :
    (svc.sizeInfo = .error e →
      LSR_E svc longitude latitude bands = .error e) ∧
    (∀ n i : ℕ, svc.sizeInfo = .ok n → i < n →
      (∀ k, k < i →
        ∃ p fs, svc.imageInfo k = .ok p ∧ svc.sampleInfo k = .ok fs) →
      (svc.imageInfo i = .error e →
        LSR_E svc longitude latitude bands = .error e) ∧
      (∀ p, svc.imageInfo i = .ok p → svc.sampleInfo i = .error e →
        LSR_E svc longitude latitude bands = .error e)) := by
  constructor
  · intro h
    simp only [LSR_E, bind, Except.bind, h]
  · intro n i hn hi hpre
    have hne : ¬ n = 0 := by omega
    have key := buildRowsE_reaches_error svc longitude latitude bands e n 0 i hi
      (by simpa using hpre)
    rw [Nat.zero_add, ← List.range_eq_range'] at key
    constructor
    · intro him
      simp only [LSR_E, bind, Except.bind, hn, if_neg hne, key.1 him]
    · intro p him hs
      simp only [LSR_E, bind, Except.bind, hn, if_neg hne, key.2 p him hs]

/-- Witness for C8: three concrete failing oracles — a failing size query, a
failing image-metadata query, and a failing sampling query — each failure
surfacing verbatim as the call's result. -/
theorem C8_upstream_errors_propagate_unmodified_witness :
    LSR_E svc0 0 0 ["SR_B4"] = .error "authentication failure" ∧
    LSR_E svcImgErr 0 0 ["SR_B4"] = .error "network error" ∧
    LSR_E svcSampErr 0 0 ["SR_B4"] = .error "missing metadata" :=
  ⟨(C8_upstream_errors_propagate_unmodified svc0 0 0 ["SR_B4"]
      "authentication failure").1 rfl,
   ((C8_upstream_errors_propagate_unmodified svcImgErr 0 0 ["SR_B4"]
      "network error").2 1 0 rfl (by decide)
      (fun k hk => absurd hk (Nat.not_lt_zero k))).1 rfl,
   ((C8_upstream_errors_propagate_unmodified svcSampErr 0 0 ["SR_B4"]
      "missing metadata").2 1 0 rfl (by decide)
      (fun k hk => absurd hk (Nat.not_lt_zero k))).2
     ⟨"2022-01-01", 1, 2, 3⟩ rfl rfl⟩

/-- C9: the call leaves its argument objects (longitude, latitude, dates,
bands list, cloud-cover threshold) unchanged: threading them through the body
as explicit state, the state after the call equals the state before it. -/
theorem C9_arguments_unchanged (catalog : List EEImage) (a : Args) :
    ((LSR_stateful catalog).run a).2 = a := by
  unfold LSR_stateful
  simp only [bind, StateT.bind, get, getThe, MonadStateOf.get, StateT.get,
    pure, StateT.pure, StateT.run]
  split <;> rfl

/-- C10: the function is deterministic with respect to the external service:
two runs with equal arguments against oracles that answer every request
equally return equal results. -/
theorem C10_deterministic_given_equal_responses (svc₁ svc₂ : EEServiceE ε)
    (h1 : svc₁.sizeInfo = svc₂.sizeInfo)
    (h2 : ∀ i, svc₁.imageInfo i = svc₂.imageInfo i)
    (h3 : ∀ i, svc₁.sampleInfo i = svc₂.sampleInfo i)
    (longitude latitude : ℚ) (bands : List String) :
    LSR_E svc₁ longitude latitude bands = LSR_E svc₂ longitude latitude bands := by
  unfold LSR_E
  rw [h1]
  simp only [buildRowsE_congr svc₁ svc₂ h2 h3]

/-- Witness for C10: two distinct oracles giving the same responses. -/
theorem C10_deterministic_given_equal_responses_witness :
    LSR_E svcA 0 0 ["SR_B4"] = LSR_E svcB 0 0 ["SR_B4"] :=
  C10_deterministic_given_equal_responses svcA svcB rfl (fun _ => rfl)
    (fun _ => rfl) 0 0 ["SR_B4"]

end Landsat
